import Mathlib

/-!
Verification of the PDF conversion worker (`src/convert_pdf_worker.py`) against
its natural-language specification.

The worker consumes JSON job messages `{bucket, inputKey, outputKey}` from a
durable queue, downloads the input object from S3 to a `/tmp` staging path,
converts it with a converter selected by applying `CONVERTERS.get` to the
lower-cased suffix of `outputKey`, uploads the result with the registered
content-type, and resolves the message with `basic_ack` / `basic_nack`.

The embedding below mirrors `process_job` (lines 90-143) and `callback`
(lines 148-156) of `convert_pdf_worker.py`.  External effects are made
explicit:
  * the local filesystem `/tmp` is an association list `path -> content`;
  * object storage is an association list `(bucket, key) -> object`;
  * S3 transient faults and the opaque converters are supplied by an `Env`
    record (the converters are deterministic functions of the input bytes,
    modelling the out-of-scope conversion capability);
  * every S3 call issued is recorded in a trace, so "no storage call was
    made" is the statement that the trace is empty;
  * a Python exception that no handler catches is the `uncaught` result.
-/

set_option autoImplicit false

namespace PdfWorker

/-- Association-list lookup with decidable key equality (models both the
local filesystem and the bucket/key object store). -/
def alookup {κ ν : Type} [DecidableEq κ] : List (κ × ν) → κ → Option ν
  | [], _ => none
  | (k, v) :: rest, a => if k = a then some v else alookup rest a

/-- Remove every binding of a key. -/
def aremove {κ ν : Type} [DecidableEq κ] : List (κ × ν) → κ → List (κ × ν)
  | [], _ => []
  | (k, v) :: rest, a => if k = a then aremove rest a else (k, v) :: aremove rest a

/-- Overwrite the binding of a key (upload / file write semantics). -/
def aset {κ ν : Type} [DecidableEq κ] (l : List (κ × ν)) (k : κ) (v : ν) :
    List (κ × ν) :=
  (k, v) :: aremove l k

/-- Local filesystem: staging path to file content. -/
abbrev FS := List (String × String)

/-- A stored object: its bytes and the content-type it was uploaded with. -/
structure S3Object where
  content : String
  contentType : String
deriving DecidableEq, Repr

/-- Object storage: (bucket, key) to object. -/
abbrev Storage := List ((String × String) × S3Object)

/-- `os.path.exists` on the model filesystem. -/
def fsExists (fs : FS) (p : String) : Bool :=
  (alookup fs p).isSome

/-- Lookup in object storage. -/
def stLookup (st : Storage) (b k : String) : Option S3Object :=
  alookup st (b, k)

/-- Split a character list on `/` (the component split `pathlib` performs on
POSIX paths); `acc` holds the current component, reversed. -/
def splitSlash : List Char → List Char → List (List Char)
  | [], acc => [acc.reverse]
  | c :: cs, acc =>
    if c = '/' then acc.reverse :: splitSlash cs [] else splitSlash cs (c :: acc)

/-- `pathlib.PurePath.name` for POSIX paths: the last path component, after
dropping empty components and `.` components (pathlib normalises both away). -/
def pathName (s : String) : String :=
  let comps := (splitSlash s.toList []).filter
    (fun p => decide (p ≠ [] ∧ p ≠ ['.']))
  String.mk ((comps.getLast?).getD [])

/-- Index of the last `.` in a character list (Python `str.rfind`). -/
def rfindDot : List Char → Option Nat
  | [] => none
  | c :: cs =>
    match rfindDot cs with
    | some i => some (i + 1)
    | none => if c = '.' then some 0 else none

/-- `pathlib.PurePath.suffix`: the extension of the name, i.e. `name[i:]` for
`i` the index of the last dot, provided `0 < i < len(name) - 1`, else `""`. -/
def pathSuffix (s : String) : String :=
  let cs := (pathName s).toList
  match rfindDot cs with
  | none => ""
  | some i => if 0 < i ∧ i < cs.length - 1 then String.mk (cs.drop i) else ""

/-- Python `str.lower` restricted to ASCII (the only characters the registry
keys use). -/
def strLower (s : String) : String :=
  String.mk (s.toList.map Char.toLower)

/-- Which registered converter a registry entry dispatches to
(`convert_to_docx` / `convert_to_pptx`, opaque capabilities). -/
inductive ConvKind
  | toDocx
  | toPptx
deriving DecidableEq, Repr

/-- One entry of the `CONVERTERS` table: converter function tag and MIME type. -/
structure ConverterInfo where
  func : ConvKind
  mime : String
deriving DecidableEq, Repr

def docxMime : String :=
  "application/vnd.openxmlformats-officedocument.wordprocessingml.document"

def pptxMime : String :=
  "application/vnd.openxmlformats-officedocument.presentationml.presentation"

/-- The conversion registry of `convert_pdf_worker.py` (lines 76-85):
file extension to converter + MIME type. -/
def CONVERTERS : List (String × ConverterInfo) :=
  [(".docx", ⟨ConvKind.toDocx, docxMime⟩),
   (".pptx", ⟨ConvKind.toPptx, pptxMime⟩)]

/-- The environment a single job runs against: injected S3 faults (a `true`
flag makes the corresponding call raise a non-404 error) and the two opaque
converters, each a deterministic function from input bytes to output bytes,
`none` meaning the converter raises. -/
structure Env where
  headTransient : Bool
  downloadTransient : Bool
  uploadTransient : Bool
  docxConv : String → Option String
  pptxConv : String → Option String

/-- Run the converter selected by the registry entry. -/
def applyConv (env : Env) : ConvKind → String → Option String
  | ConvKind.toDocx => env.docxConv
  | ConvKind.toPptx => env.pptxConv

/-- The parsed JSON object of a message body, with string-valued fields. -/
structure JobData where
  fields : List (String × String)
deriving DecidableEq, Repr

/-- `data[k]` returning `none` where Python raises `KeyError`. -/
def JobData.get (d : JobData) (k : String) : Option String :=
  alookup d.fields k

/-- Which terminal branch of `process_job` fired.
  * `keyError k`  : `data[k]` raised (line 94-96); no handler catches it.
  * `unsupported` : no registry entry for the extension (lines 105-108).
  * `notFound`    : `head_object` raised ClientError 404 (lines 135-137).
  * `s3Error`     : a non-404 ClientError in the try block (lines 138-140).
  * `jobError`    : any other exception, e.g. converter failure (lines 141-143).
  * `success`     : download, convert, upload and cleanup all ran (lines 110-132). -/
inductive JobOutcome
  | keyError (k : String)
  | unsupported
  | notFound
  | s3Error
  | jobError
  | success
deriving DecidableEq, Repr

/-- One S3 client call, as issued (whether or not it then raised). -/
inductive StorageOp
  | headOp (bucket key : String)
  | downloadOp (bucket key : String)
  | uploadOp (bucket key : String)
deriving DecidableEq, Repr

/-- Result of one `process_job` run: branch taken, final filesystem, final
object storage, and the S3 calls issued in order. -/
structure RunResult where
  outcome : JobOutcome
  fs : FS
  st : Storage
  trace : List StorageOp
deriving DecidableEq, Repr

/-- `process_job(ch, method, data)` of `convert_pdf_worker.py` (lines 90-143),
with the message resolution factored out into `resolutionOf` below.

Mirrors the source line by line: read the three fields (a missing one raises
`KeyError`); build the two staging paths from the key basenames; look up the
lower-cased suffix of `outputKey` in `CONVERTERS`, nacking without requeue on
a miss; then the `try` block: `head_object` (404 when the input key is not in
storage), `download_file` into `input_path`, the selected converter from
`input_path` to `output_path`, `upload_file` of `output_path` with the
registry MIME type, and removal of both staging paths — note the cleanup loop
(lines 127-129) runs only on this success path, the exception handlers do not
clean up. -/
def process_job (env : Env) (data : JobData) (fs : FS) (st : Storage) :
    RunResult :=
  match data.get "inputKey" with
  | none => ⟨JobOutcome.keyError "inputKey", fs, st, []⟩
  | some input_key =>
    match data.get "outputKey" with
    | none => ⟨JobOutcome.keyError "outputKey", fs, st, []⟩
    | some output_key =>
      match data.get "bucket" with
      | none => ⟨JobOutcome.keyError "bucket", fs, st, []⟩
      | some bucket =>
        let input_path := "/tmp/" ++ pathName input_key
        let output_path := "/tmp/" ++ pathName output_key
        let ext := strLower (pathSuffix output_key)
        match alookup CONVERTERS ext with
        | none => ⟨JobOutcome.unsupported, fs, st, []⟩
        | some cinfo =>
          if env.headTransient then
            ⟨JobOutcome.s3Error, fs, st, [StorageOp.headOp bucket input_key]⟩
          else
            match stLookup st bucket input_key with
            | none =>
              ⟨JobOutcome.notFound, fs, st, [StorageOp.headOp bucket input_key]⟩
            | some obj =>
              if env.downloadTransient then
                ⟨JobOutcome.s3Error, fs, st,
                  [StorageOp.headOp bucket input_key,
                   StorageOp.downloadOp bucket input_key]⟩
              else
                let fs1 := aset fs input_path obj.content
                match applyConv env cinfo.func obj.content with
                | none =>
                  ⟨JobOutcome.jobError, fs1, st,
                    [StorageOp.headOp bucket input_key,
                     StorageOp.downloadOp bucket input_key]⟩
                | some outContent =>
                  let fs2 := aset fs1 output_path outContent
                  if env.uploadTransient then
                    ⟨JobOutcome.jobError, fs2, st,
                      [StorageOp.headOp bucket input_key,
                       StorageOp.downloadOp bucket input_key,
                       StorageOp.uploadOp bucket output_key]⟩
                  else
                    let st1 := aset st (bucket, output_key)
                      ⟨outContent, cinfo.mime⟩
                    let fs3 := aremove (aremove fs2 input_path) output_path
                    ⟨JobOutcome.success, fs3, st1,
                      [StorageOp.headOp bucket input_key,
                       StorageOp.downloadOp bucket input_key,
                       StorageOp.uploadOp bucket output_key]⟩

/-- A Python exception escaping the callback uncaught. -/
inductive PyError
  | keyError (field : String)
  | unicodeDecodeError
deriving DecidableEq, Repr

/-- How a delivered message ends up resolved at the broker. -/
inductive Resolution
  | acknowledge
  | rejectRequeue
  | rejectDrop
deriving DecidableEq, Repr

/-- Either the message was resolved, or an exception propagated out of the
callback and the message was never resolved. -/
inductive ProcResult
  | resolved (r : Resolution)
  | uncaught (e : PyError)
deriving DecidableEq, Repr

/-- How each `process_job` branch resolves the message, read off lines
105-143 of `convert_pdf_worker.py`:
  * missing field: the `KeyError` is caught nowhere — no resolution;
  * unsupported format: `basic_nack(requeue=False)` (line 107);
  * 404 from `head_object`: `basic_ack` (line 137 — the code positively
    acknowledges a missing source, it does not nack);
  * other ClientError: `basic_nack(requeue=False)` (line 140);
  * any other exception: `basic_nack(requeue=False)` (line 143);
  * success: `basic_ack` (line 132). -/
def resolutionOf : JobOutcome → ProcResult
  | JobOutcome.keyError k => ProcResult.uncaught (PyError.keyError k)
  | JobOutcome.unsupported => ProcResult.resolved Resolution.rejectDrop
  | JobOutcome.notFound => ProcResult.resolved Resolution.acknowledge
  | JobOutcome.s3Error => ProcResult.resolved Resolution.rejectDrop
  | JobOutcome.jobError => ProcResult.resolved Resolution.rejectDrop
  | JobOutcome.success => ProcResult.resolved Resolution.acknowledge

/-- A raw message body, classified by how `body.decode()` / `json.loads`
treat it: bytes that are not valid UTF-8 (decode raises
`UnicodeDecodeError`), a UTF-8 string that is not valid JSON (`json.loads`
raises `JSONDecodeError`), or a JSON object with string fields. -/
inductive Body
  | invalidUtf8
  | invalidJson (s : String)
  | jsonObj (data : JobData)

/-- Result of one `callback` invocation. -/
structure CallbackResult where
  result : ProcResult
  fs : FS
  st : Storage
  trace : List StorageOp
deriving DecidableEq, Repr

/-- `callback(ch, method, properties, body)` (lines 148-156): only
`json.JSONDecodeError` is caught (nack without requeue); a
`UnicodeDecodeError` from `body.decode()` is not a `JSONDecodeError` and
propagates; otherwise the parsed data goes to `process_job`. -/
def callback (env : Env) (body : Body) (fs : FS) (st : Storage) :
    CallbackResult :=
  match body with
  | Body.invalidUtf8 =>
    ⟨ProcResult.uncaught PyError.unicodeDecodeError, fs, st, []⟩
  | Body.invalidJson _ =>
    ⟨ProcResult.resolved Resolution.rejectDrop, fs, st, []⟩
  | Body.jsonObj data =>
    let r := process_job env data fs st
    ⟨resolutionOf r.outcome, r.fs, r.st, r.trace⟩

/-- The first of `inputKey`, `outputKey`, `bucket` missing from the parsed
data — the field whose access raises the `KeyError`, in the access order of
lines 94-96. -/
def firstMissingField (d : JobData) : Option String :=
  if (d.get "inputKey").isNone then some "inputKey"
  else if (d.get "outputKey").isNone then some "outputKey"
  else if (d.get "bucket").isNone then some "bucket"
  else none

/-- The registry entry `process_job` selects for a parsed message:
`CONVERTERS.get` applied to the lower-cased suffix of `outputKey`
(lines 102-103), `none` when a field access raises first. -/
def selectedConverter (d : JobData) : Option ConverterInfo :=
  (d.get "outputKey").bind
    (fun output_key => alookup CONVERTERS (strLower (pathSuffix output_key)))

/-! ### Concrete fixtures used by counterexamples and witnesses -/

/-- The scenario message of the spec:
`{bucket: "b", inputKey: "in/doc.pdf", outputKey: "out/doc.docx"}`. -/
def goodData : JobData :=
  ⟨[("bucket", "b"), ("inputKey", "in/doc.pdf"), ("outputKey", "out/doc.docx")]⟩

/-- A fault-free environment whose converters succeed deterministically. -/
def okEnv : Env :=
  ⟨false, false, false,
   fun s => some ("DOCX(" ++ s ++ ")"),
   fun s => some ("PPTX(" ++ s ++ ")")⟩

/-- A fault-free environment whose converters always raise. -/
def convFailEnv : Env :=
  ⟨false, false, false, fun _ => none, fun _ => none⟩

/-- Storage holding the scenario input object. -/
def st0 : Storage :=
  [(("b", "in/doc.pdf"), ⟨"%PDF-bytes", "application/pdf"⟩)]

/-! ### Association-list lemmas -/

theorem alookup_aremove_self {κ ν : Type} [DecidableEq κ]
    (l : List (κ × ν)) (k : κ) : alookup (aremove l k) k = none := by
  induction l with
  | nil => rfl
  | cons hd tl ih =>
    obtain ⟨a, v⟩ := hd
    by_cases h : a = k
    · simpa [aremove, h] using ih
    · simpa [aremove, alookup, h] using ih

theorem alookup_aremove_ne {κ ν : Type} [DecidableEq κ]
    (l : List (κ × ν)) (k k' : κ) (h : k' ≠ k) :
    alookup (aremove l k) k' = alookup l k' := by
  induction l with
  | nil => rfl
  | cons hd tl ih =>
    obtain ⟨a, v⟩ := hd
    by_cases ha : a = k
    · subst ha
      have ha' : ¬a = k' := fun hk => h hk.symm
      simp only [aremove, alookup, if_pos rfl, if_neg ha']
      exact ih
    · by_cases ha' : a = k'
      · simp only [aremove, alookup, if_neg ha, if_pos ha']
      · simp only [aremove, alookup, if_neg ha, if_neg ha']
        exact ih

theorem alookup_aset_self {κ ν : Type} [DecidableEq κ]
    (l : List (κ × ν)) (k : κ) (v : ν) : alookup (aset l k v) k = some v := by
  simp [aset, alookup]

theorem alookup_aset_ne {κ ν : Type} [DecidableEq κ]
    (l : List (κ × ν)) (k k' : κ) (v : ν) (h : k' ≠ k) :
    alookup (aset l k v) k' = alookup l k' := by
  have hk : ¬k = k' := fun hk => h hk.symm
  simp only [aset, alookup, if_neg hk]
  exact alookup_aremove_ne l k k' h

/-- After removing `p` and then `q`, neither path is present. -/
theorem fsExists_aremove_aremove (fs : FS) (p q : String) :
    fsExists (aremove (aremove fs p) q) p = false
    ∧ fsExists (aremove (aremove fs p) q) q = false := by
  constructor
  · by_cases h : p = q
    · subst h
      simp [fsExists, alookup_aremove_self]
    · simp [fsExists, alookup_aremove_ne _ _ _ h, alookup_aremove_self]
  · simp [fsExists, alookup_aremove_self]

end PdfWorker

namespace PdfWorker

/-! ### C1: staging-file cleanup -/

/-- C1 is refuted: the cleanup loop (lines 127-129) sits inside the `try`
block before `basic_ack`, so it runs only on full success.  Concretely, for
the scenario message with the input present but a failing converter, the job
resolves as a terminal drop (`RejectDrop` via the generic exception handler)
while the downloaded staging file `/tmp/doc.pdf` still exists. -/
theorem C1_cleanup_counterexample :
    resolutionOf (process_job convFailEnv goodData [] st0).outcome
        = ProcResult.resolved Resolution.rejectDrop
    ∧ fsExists (process_job convFailEnv goodData [] st0).fs "/tmp/doc.pdf"
        = true := by
  decide

/-- C1 amended: staging files are removed only on the full-success path; on
the pre-`try` drop (unsupported format) and on the 404 drop no staging file
has been created, so the filesystem is unchanged — but failures after the
download (conversion, upload) leave the already-staged files behind. -/
theorem C1_cleanup_amended (env : Env) (data : JobData) (fs : FS)
    (st : Storage) (ik ok : String)
    (hik : data.get "inputKey" = some ik)
    (hok : data.get "outputKey" = some ok) :
    ((process_job env data fs st).outcome = JobOutcome.success →
        fsExists (process_job env data fs st).fs ("/tmp/" ++ pathName ik)
            = false
      ∧ fsExists (process_job env data fs st).fs ("/tmp/" ++ pathName ok)
            = false)
    ∧ ((process_job env data fs st).outcome = JobOutcome.unsupported →
        (process_job env data fs st).fs = fs)
    ∧ ((process_job env data fs st).outcome = JobOutcome.notFound →
        (process_job env data fs st).fs = fs) := by
  cases hb : data.get "bucket" with
  | none => simp [process_job, hik, hok, hb]
  | some b =>
    cases hc : alookup CONVERTERS (strLower (pathSuffix ok)) with
    | none => simp [process_job, hik, hok, hb, hc]
    | some c =>
      cases hht : env.headTransient with
      | true => simp [process_job, hik, hok, hb, hc, hht]
      | false =>
        cases hobj : stLookup st b ik with
        | none => simp [process_job, hik, hok, hb, hc, hht, hobj]
        | some obj =>
          cases hdt : env.downloadTransient with
          | true => simp [process_job, hik, hok, hb, hc, hht, hobj, hdt]
          | false =>
            cases hcv : applyConv env c.func obj.content with
            | none => simp [process_job, hik, hok, hb, hc, hht, hobj, hdt, hcv]
            | some out =>
              cases hut : env.uploadTransient with
              | true =>
                simp [process_job, hik, hok, hb, hc, hht, hobj, hdt, hcv, hut]
              | false =>
                refine ⟨fun _ => ?_, by simp [process_job, hik, hok, hb, hc,
                  hht, hobj, hdt, hcv, hut], by simp [process_job, hik, hok,
                  hb, hc, hht, hobj, hdt, hcv, hut]⟩
                have h2 := fsExists_aremove_aremove
                  (aset (aset fs ("/tmp/" ++ pathName ik) obj.content)
                    ("/tmp/" ++ pathName ok) out)
                  ("/tmp/" ++ pathName ik) ("/tmp/" ++ pathName ok)
                constructor
                · simpa [process_job, hik, hok, hb, hc, hht, hobj, hdt, hcv,
                    hut] using h2.1
                · simpa [process_job, hik, hok, hb, hc, hht, hobj, hdt, hcv,
                    hut] using h2.2

/-- Witness for `C1_cleanup_amended` at the scenario message with the working
environment: the hypotheses hold and the success path leaves no staging
file. -/
theorem C1_cleanup_amended_witness :
    (((process_job okEnv goodData [] st0).outcome = JobOutcome.success →
        fsExists (process_job okEnv goodData [] st0).fs
            ("/tmp/" ++ pathName "in/doc.pdf") = false
      ∧ fsExists (process_job okEnv goodData [] st0).fs
            ("/tmp/" ++ pathName "out/doc.docx") = false)
    ∧ ((process_job okEnv goodData [] st0).outcome = JobOutcome.unsupported →
        (process_job okEnv goodData [] st0).fs = [])
    ∧ ((process_job okEnv goodData [] st0).outcome = JobOutcome.notFound →
        (process_job okEnv goodData [] st0).fs = [])) :=
  C1_cleanup_amended okEnv goodData [] st0 "in/doc.pdf" "out/doc.docx"
    (by decide) (by decide)

/-! ### C2: missing source -/

/-- C2 is refuted: for the scenario message against empty storage the
`head_object` call 404s, and the handler at line 137 calls `basic_ack` — the
message is resolved as Acknowledge, not as a negative acknowledgment. -/
theorem C2_notfound_counterexample :
    (process_job okEnv goodData [] []).outcome = JobOutcome.notFound
    ∧ resolutionOf (process_job okEnv goodData [] []).outcome
        = ProcResult.resolved Resolution.acknowledge
    ∧ resolutionOf (process_job okEnv goodData [] []).outcome
        ≠ ProcResult.resolved Resolution.rejectDrop := by
  decide

/-- C2 amended: for every job whose input key does not exist in storage (the
existence check reports 404) and whose format is registered, the job
processor resolves the message as Acknowledge — a positive acknowledgment
that still removes the message without redelivery — leaving filesystem and
storage untouched, with only the `head_object` call issued. -/
theorem C2_notfound_acks (env : Env) (data : JobData) (fs : FS)
    (st : Storage) (ik ok b : String) (c : ConverterInfo)
    (hik : data.get "inputKey" = some ik)
    (hok : data.get "outputKey" = some ok)
    (hb : data.get "bucket" = some b)
    (hc : alookup CONVERTERS (strLower (pathSuffix ok)) = some c)
    (hht : env.headTransient = false)
    (hmiss : stLookup st b ik = none) :
    process_job env data fs st
      = ⟨JobOutcome.notFound, fs, st, [StorageOp.headOp b ik]⟩
    ∧ resolutionOf (process_job env data fs st).outcome
        = ProcResult.resolved Resolution.acknowledge := by
  simp [process_job, hik, hok, hb, hc, hht, hmiss, resolutionOf]

/-- Witness for `C2_notfound_acks`: the scenario message against empty
storage. -/
theorem C2_notfound_acks_witness :
    process_job okEnv goodData [] []
      = ⟨JobOutcome.notFound, [], [], [StorageOp.headOp "b" "in/doc.pdf"]⟩
    ∧ resolutionOf (process_job okEnv goodData [] []).outcome
        = ProcResult.resolved Resolution.acknowledge :=
  C2_notfound_acks okEnv goodData [] [] "in/doc.pdf" "out/doc.docx" "b"
    ⟨ConvKind.toDocx, docxMime⟩ (by decide) (by decide) (by decide)
    (by decide) (by decide) (by decide)

/-! ### C3: field validation -/

/-- C3 is refuted: there is no field validation in `process_job`.  A parsed
message lacking `inputKey` makes line 94 raise `KeyError`, which neither
`process_job` nor `callback` catches: the callback does not resolve the
message as RejectDrop — the error propagates out of the message callback. -/
theorem C3_validation_counterexample :
    (callback okEnv
        (Body.jsonObj ⟨[("bucket", "b"), ("outputKey", "o.docx")]⟩) [] []).result
      = ProcResult.uncaught (PyError.keyError "inputKey")
    ∧ (callback okEnv
        (Body.jsonObj ⟨[("bucket", "b"), ("outputKey", "o.docx")]⟩) [] []).result
      ≠ ProcResult.resolved Resolution.rejectDrop := by
  decide

/-- C3 amended: a parsed message missing one of `inputKey`, `outputKey`,
`bucket` (first missing in the access order of lines 94-96) raises a
`KeyError` that no handler catches; the callback returns with the error
propagating, the message unresolved, no storage call issued and the state
untouched.  (Empty fields are not rejected either: they flow on into the
format lookup and the storage calls.) -/
theorem C3_missing_field_uncaught (env : Env) (d : JobData) (fs : FS)
    (st : Storage) (k : String)
    (hk : firstMissingField d = some k) :
    callback env (Body.jsonObj d) fs st
      = ⟨ProcResult.uncaught (PyError.keyError k), fs, st, []⟩ := by
  cases hik : d.get "inputKey" with
  | none =>
    simp only [firstMissingField, hik, Option.isNone_none, if_pos,
      Option.some.injEq] at hk
    subst hk
    simp [callback, process_job, hik, resolutionOf]
  | some ik =>
    cases hok : d.get "outputKey" with
    | none =>
      simp only [firstMissingField, hik, hok] at hk
      simp at hk
      subst hk
      simp [callback, process_job, hik, hok, resolutionOf]
    | some ok =>
      cases hb : d.get "bucket" with
      | none =>
        simp only [firstMissingField, hik, hok, hb] at hk
        simp at hk
        subst hk
        simp [callback, process_job, hik, hok, hb, resolutionOf]
      | some b =>
        simp [firstMissingField, hik, hok, hb] at hk

/-- Witness for `C3_missing_field_uncaught`: the empty JSON object. -/
theorem C3_missing_field_uncaught_witness :
    callback okEnv (Body.jsonObj ⟨[]⟩) [] []
      = ⟨ProcResult.uncaught (PyError.keyError "inputKey"), [], [], []⟩ :=
  C3_missing_field_uncaught okEnv ⟨[]⟩ [] [] "inputKey" (by decide)

/-! ### C4: end-to-end success -/

/-- C4 confirmed: when the fields are present, the format is registered, the
input object exists, and head/download/convert/upload all succeed, the
message is resolved as Acknowledge, the object stored at `bucket/outputKey`
carries exactly the registry entry's content-type, and neither staging path
exists afterwards. -/
theorem C4_success_ack (env : Env) (data : JobData) (fs : FS) (st : Storage)
    (ik ok b : String) (c : ConverterInfo) (obj : S3Object) (out : String)
    (hik : data.get "inputKey" = some ik)
    (hok : data.get "outputKey" = some ok)
    (hb : data.get "bucket" = some b)
    (hc : alookup CONVERTERS (strLower (pathSuffix ok)) = some c)
    (hht : env.headTransient = false)
    (hdt : env.downloadTransient = false)
    (hut : env.uploadTransient = false)
    (hobj : stLookup st b ik = some obj)
    (hcv : applyConv env c.func obj.content = some out) :
    resolutionOf (process_job env data fs st).outcome
        = ProcResult.resolved Resolution.acknowledge
    ∧ stLookup (process_job env data fs st).st b ok
        = some ⟨out, c.mime⟩
    ∧ fsExists (process_job env data fs st).fs ("/tmp/" ++ pathName ik)
        = false
    ∧ fsExists (process_job env data fs st).fs ("/tmp/" ++ pathName ok)
        = false := by
  have h2 := fsExists_aremove_aremove
    (aset (aset fs ("/tmp/" ++ pathName ik) obj.content)
      ("/tmp/" ++ pathName ok) out)
    ("/tmp/" ++ pathName ik) ("/tmp/" ++ pathName ok)
  refine ⟨?_, ?_, ?_, ?_⟩
  · simp [process_job, hik, hok, hb, hc, hht, hdt, hut, hobj, hcv,
      resolutionOf]
  · have hobj' : alookup st (b, ik) = some obj := hobj
    simp [process_job, hik, hok, hb, hc, hht, hdt, hut, hobj', hcv,
      stLookup, alookup_aset_self]
  · simpa [process_job, hik, hok, hb, hc, hht, hdt, hut, hobj, hcv]
      using h2.1
  · simpa [process_job, hik, hok, hb, hc, hht, hdt, hut, hobj, hcv]
      using h2.2

/-- Witness for `C4_success_ack`: the spec's scenario, input present and all
steps succeeding, stored artifact with the DOCX content-type. -/
theorem C4_success_ack_witness :
    resolutionOf (process_job okEnv goodData [] st0).outcome
        = ProcResult.resolved Resolution.acknowledge
    ∧ stLookup (process_job okEnv goodData [] st0).st "b" "out/doc.docx"
        = some ⟨"DOCX(%PDF-bytes)", docxMime⟩
    ∧ fsExists (process_job okEnv goodData [] st0).fs
        ("/tmp/" ++ pathName "in/doc.pdf") = false
    ∧ fsExists (process_job okEnv goodData [] st0).fs
        ("/tmp/" ++ pathName "out/doc.docx") = false :=
  C4_success_ack okEnv goodData [] st0 "in/doc.pdf" "out/doc.docx" "b"
    ⟨ConvKind.toDocx, docxMime⟩ ⟨"%PDF-bytes", "application/pdf"⟩
    "DOCX(%PDF-bytes)" (by decide) (by decide) (by decide) (by decide)
    (by decide) (by decide) (by decide) (by decide) (by decide)

/-! ### C5: malformed bodies -/

/-- C5 is refuted on its UTF-8 half: `callback` catches only
`json.JSONDecodeError`, so a body that is not valid UTF-8 makes
`body.decode()` raise `UnicodeDecodeError`, which propagates uncaught — the
message is not resolved as RejectDrop (it is not resolved at all), though no
storage call is issued. -/
theorem C5_decode_counterexample :
    (callback okEnv Body.invalidUtf8 [] []).result
      = ProcResult.uncaught PyError.unicodeDecodeError
    ∧ (callback okEnv Body.invalidUtf8 [] []).result
      ≠ ProcResult.resolved Resolution.rejectDrop := by
  decide

/-- C5 amended: a body that decodes as UTF-8 but fails JSON parsing is
resolved RejectDrop with no storage operation issued and no state change; a
body that is not valid UTF-8 instead raises an uncaught `UnicodeDecodeError`
(the message stays unresolved), likewise with no storage operation. -/
theorem C5_malformed_body (env : Env) (fs : FS) (st : Storage) :
    (∀ s : String,
      callback env (Body.invalidJson s) fs st
        = ⟨ProcResult.resolved Resolution.rejectDrop, fs, st, []⟩)
    ∧ callback env Body.invalidUtf8 fs st
        = ⟨ProcResult.uncaught PyError.unicodeDecodeError, fs, st, []⟩ :=
  ⟨fun _ => rfl, rfl⟩

/-! ### C6: unsupported format -/

/-- C6 confirmed: a parsed job whose `outputKey` extension has no entry in
`CONVERTERS` is nacked without requeue at lines 105-108, before the `try`
block — the result records an empty storage trace (neither `head_object` nor
`download_file` was issued) and unchanged filesystem and storage. -/
theorem C6_unsupported_drop (env : Env) (data : JobData) (fs : FS)
    (st : Storage) (ik ok b : String)
    (hik : data.get "inputKey" = some ik)
    (hok : data.get "outputKey" = some ok)
    (hb : data.get "bucket" = some b)
    (hc : alookup CONVERTERS (strLower (pathSuffix ok)) = none) :
    process_job env data fs st = ⟨JobOutcome.unsupported, fs, st, []⟩
    ∧ resolutionOf (process_job env data fs st).outcome
        = ProcResult.resolved Resolution.rejectDrop := by
  simp [process_job, hik, hok, hb, hc, resolutionOf]

/-- Witness for `C6_unsupported_drop`: the spec's scenario with
`outputKey = "out/doc.xyz"`. -/
theorem C6_unsupported_drop_witness :
    process_job okEnv
        ⟨[("bucket", "b"), ("inputKey", "in/doc.pdf"),
          ("outputKey", "out/doc.xyz")]⟩ [] st0
      = ⟨JobOutcome.unsupported, [], st0, []⟩
    ∧ resolutionOf (process_job okEnv
        ⟨[("bucket", "b"), ("inputKey", "in/doc.pdf"),
          ("outputKey", "out/doc.xyz")]⟩ [] st0).outcome
      = ProcResult.resolved Resolution.rejectDrop :=
  C6_unsupported_drop okEnv
    ⟨[("bucket", "b"), ("inputKey", "in/doc.pdf"),
      ("outputKey", "out/doc.xyz")]⟩ [] st0 "in/doc.pdf" "out/doc.xyz" "b"
    (by decide) (by decide) (by decide) (by decide)

/-! ### C7: operational failures drop, never requeue -/

/-- C7 confirmed: with a registered format, the input present and the
existence check passing, a failure at the download step (transient storage
error), the conversion step (converter raises), or the upload step makes the
handlers at lines 138-143 nack with `requeue=False`: the message resolves as
RejectDrop and never as RejectRequeue. -/
theorem C7_failure_drops_never_requeues (env : Env) (data : JobData)
    (fs : FS) (st : Storage) (ik ok b : String) (c : ConverterInfo)
    (obj : S3Object)
    (hik : data.get "inputKey" = some ik)
    (hok : data.get "outputKey" = some ok)
    (hb : data.get "bucket" = some b)
    (hc : alookup CONVERTERS (strLower (pathSuffix ok)) = some c)
    (hht : env.headTransient = false)
    (hobj : stLookup st b ik = some obj)
    (hfail : env.downloadTransient = true
      ∨ (env.downloadTransient = false
          ∧ applyConv env c.func obj.content = none)
      ∨ (env.downloadTransient = false ∧ env.uploadTransient = true
          ∧ ∃ out, applyConv env c.func obj.content = some out)) :
    resolutionOf (process_job env data fs st).outcome
        = ProcResult.resolved Resolution.rejectDrop
    ∧ resolutionOf (process_job env data fs st).outcome
        ≠ ProcResult.resolved Resolution.rejectRequeue := by
  rcases hfail with hdt | ⟨hdt, hcv⟩ | ⟨hdt, hut, out, hcv⟩
  · simp [process_job, hik, hok, hb, hc, hht, hobj, hdt, resolutionOf]
  · simp [process_job, hik, hok, hb, hc, hht, hobj, hdt, hcv, resolutionOf]
  · simp [process_job, hik, hok, hb, hc, hht, hobj, hdt, hut, hcv,
      resolutionOf]

/-- Witness for `C7_failure_drops_never_requeues`: the scenario message with
a failing converter. -/
theorem C7_failure_drops_never_requeues_witness :
    resolutionOf (process_job convFailEnv goodData [] st0).outcome
        = ProcResult.resolved Resolution.rejectDrop
    ∧ resolutionOf (process_job convFailEnv goodData [] st0).outcome
        ≠ ProcResult.resolved Resolution.rejectRequeue :=
  C7_failure_drops_never_requeues convFailEnv goodData [] st0 "in/doc.pdf"
    "out/doc.docx" "b" ⟨ConvKind.toDocx, docxMime⟩
    ⟨"%PDF-bytes", "application/pdf"⟩ (by decide) (by decide) (by decide)
    (by decide) (by decide) (by decide)
    (Or.inr (Or.inl ⟨by decide, by decide⟩))

/-! ### C8: idempotent redelivery -/

/-- C8 confirmed: after a fully successful run of a well-formed message
(with `inputKey` distinct from `outputKey`, so the upload does not overwrite
the input object), redelivering the same message to the processor succeeds
again — the upload is an idempotent overwrite, the object stored at
`bucket/outputKey` is unchanged, and the message is again resolved as
Acknowledge. -/
theorem C8_idempotent_redelivery (env : Env) (data : JobData) (fs : FS)
    (st : Storage) (ik ok b : String)
    (hik : data.get "inputKey" = some ik)
    (hok : data.get "outputKey" = some ok)
    (hb : data.get "bucket" = some b)
    (hne : ik ≠ ok)
    (hsucc : (process_job env data fs st).outcome = JobOutcome.success) :
    (process_job env data (process_job env data fs st).fs
        (process_job env data fs st).st).outcome = JobOutcome.success
    ∧ resolutionOf (process_job env data (process_job env data fs st).fs
        (process_job env data fs st).st).outcome
        = ProcResult.resolved Resolution.acknowledge
    ∧ stLookup (process_job env data (process_job env data fs st).fs
        (process_job env data fs st).st).st b ok
        = stLookup (process_job env data fs st).st b ok := by
  cases hc : alookup CONVERTERS (strLower (pathSuffix ok)) with
  | none => simp [process_job, hik, hok, hb, hc] at hsucc
  | some c =>
    cases hht : env.headTransient with
    | true => simp [process_job, hik, hok, hb, hc, hht] at hsucc
    | false =>
      cases hobj : alookup st (b, ik) with
      | none =>
        simp [process_job, hik, hok, hb, hc, hht, stLookup, hobj] at hsucc
      | some obj =>
        cases hdt : env.downloadTransient with
        | true =>
          simp [process_job, hik, hok, hb, hc, hht, stLookup, hobj, hdt]
            at hsucc
        | false =>
          cases hcv : applyConv env c.func obj.content with
          | none =>
            simp [process_job, hik, hok, hb, hc, hht, stLookup, hobj, hdt,
              hcv] at hsucc
          | some out =>
            cases hut : env.uploadTransient with
            | true =>
              simp [process_job, hik, hok, hb, hc, hht, stLookup, hobj, hdt,
                hcv, hut] at hsucc
            | false =>
              have hpair : (b, ik) ≠ (b, ok) :=
                fun hEq => hne (congrArg Prod.snd hEq)
              have hobj2 : alookup
                  (aset st (b, ok) (⟨out, c.mime⟩ : S3Object)) (b, ik)
                  = some obj := by
                rw [alookup_aset_ne _ _ _ _ hpair]
                exact hobj
              refine ⟨?_, ?_, ?_⟩ <;>
                simp [process_job, hik, hok, hb, hc, hht, hdt, hut, stLookup,
                  hobj, hobj2, hcv, resolutionOf, alookup_aset_self]

/-- Witness for `C8_idempotent_redelivery`: the scenario message run twice
from the scenario storage. -/
theorem C8_idempotent_redelivery_witness :
    (process_job okEnv goodData (process_job okEnv goodData [] st0).fs
        (process_job okEnv goodData [] st0).st).outcome = JobOutcome.success
    ∧ resolutionOf (process_job okEnv goodData
        (process_job okEnv goodData [] st0).fs
        (process_job okEnv goodData [] st0).st).outcome
        = ProcResult.resolved Resolution.acknowledge
    ∧ stLookup (process_job okEnv goodData
        (process_job okEnv goodData [] st0).fs
        (process_job okEnv goodData [] st0).st).st "b" "out/doc.docx"
        = stLookup (process_job okEnv goodData [] st0).st "b" "out/doc.docx" :=
  C8_idempotent_redelivery okEnv goodData [] st0 "in/doc.pdf" "out/doc.docx"
    "b" (by decide) (by decide) (by decide) (by decide) (by decide)

/-! ### C9: case-insensitive converter selection -/

/-- C9 confirmed: converter selection applies `str.lower` to the extension
(line 102), so two messages that agree on `inputKey` and `bucket` and whose
`outputKey` extensions agree up to letter case (same lower-cased suffix,
e.g. `.DOCX` vs `.docx`) select the same `CONVERTERS` entry (same converter
and content-type) and their processing takes the same outcome branch. -/
theorem C9_case_insensitive_selection (env : Env) (fs : FS) (st : Storage)
    (d d' : JobData) (ok ok' : String)
    (hok : d.get "outputKey" = some ok)
    (hok' : d'.get "outputKey" = some ok')
    (hikEq : d.get "inputKey" = d'.get "inputKey")
    (hbEq : d.get "bucket" = d'.get "bucket")
    (hsuffix : strLower (pathSuffix ok) = strLower (pathSuffix ok')) :
    selectedConverter d = selectedConverter d'
    ∧ (process_job env d fs st).outcome
        = (process_job env d' fs st).outcome := by
  constructor
  · simp [selectedConverter, hok, hok', hsuffix]
  · cases hik : d.get "inputKey" with
    | none =>
      have hik' : d'.get "inputKey" = none := hikEq.symm.trans hik
      simp [process_job, hik, hik']
    | some ik =>
      have hik' : d'.get "inputKey" = some ik := hikEq.symm.trans hik
      cases hbv : d.get "bucket" with
      | none =>
        have hb' : d'.get "bucket" = none := hbEq.symm.trans hbv
        simp [process_job, hik, hik', hok, hok', hbv, hb']
      | some b =>
        have hb' : d'.get "bucket" = some b := hbEq.symm.trans hbv
        cases hc : alookup CONVERTERS (strLower (pathSuffix ok')) with
        | none =>
          simp [process_job, hik, hik', hok, hok', hbv, hb', hsuffix, hc]
        | some c =>
          cases hht : env.headTransient with
          | true =>
            simp [process_job, hik, hik', hok, hok', hbv, hb', hsuffix, hc,
              hht]
          | false =>
            cases hobj : stLookup st b ik with
            | none =>
              simp [process_job, hik, hik', hok, hok', hbv, hb', hsuffix,
                hc, hht, hobj]
            | some obj =>
              cases hdt : env.downloadTransient with
              | true =>
                simp [process_job, hik, hik', hok, hok', hbv, hb', hsuffix,
                  hc, hht, hobj, hdt]
              | false =>
                cases hcv : applyConv env c.func obj.content with
                | none =>
                  simp [process_job, hik, hik', hok, hok', hbv, hb',
                    hsuffix, hc, hht, hobj, hdt, hcv]
                | some out =>
                  cases hut : env.uploadTransient with
                  | true =>
                    simp [process_job, hik, hik', hok, hok', hbv, hb',
                      hsuffix, hc, hht, hobj, hdt, hcv, hut]
                  | false =>
                    simp [process_job, hik, hik', hok, hok', hbv, hb',
                      hsuffix, hc, hht, hobj, hdt, hcv, hut]

/-- Witness for `C9_case_insensitive_selection`: `out/doc.DOCX` selects the
same converter and outcome branch as `out/doc.docx`. -/
theorem C9_case_insensitive_selection_witness :
    selectedConverter ⟨[("bucket", "b"), ("inputKey", "in/doc.pdf"),
        ("outputKey", "out/doc.DOCX")]⟩ = selectedConverter goodData
    ∧ (process_job okEnv ⟨[("bucket", "b"), ("inputKey", "in/doc.pdf"),
        ("outputKey", "out/doc.DOCX")]⟩ [] st0).outcome
      = (process_job okEnv goodData [] st0).outcome :=
  C9_case_insensitive_selection okEnv [] st0
    ⟨[("bucket", "b"), ("inputKey", "in/doc.pdf"),
      ("outputKey", "out/doc.DOCX")]⟩ goodData "out/doc.DOCX" "out/doc.docx"
    (by decide) (by decide) (by decide) (by decide) (by decide)

/-! ### C10: extensionless output keys -/

/-- A character list without a dot has no last-dot index. -/
theorem rfindDot_eq_none (cs : List Char) (h : '.' ∉ cs) :
    rfindDot cs = none := by
  induction cs with
  | nil => rfl
  | cons c cs ih =>
    rw [List.mem_cons, not_or] at h
    simp only [rfindDot, ih h.2]
    exact if_neg (fun hc => h.1 hc.symm)

/-- C10 confirmed: when the basename of `outputKey` contains no dot, the
derived suffix is the empty string, the registry lookup fails, and the job
is dropped before the `try` block: RejectDrop, empty storage trace (no S3
call), and filesystem untouched (no staging file created). -/
theorem C10_no_extension_drop (env : Env) (data : JobData) (fs : FS)
    (st : Storage) (ik ok b : String)
    (hik : data.get "inputKey" = some ik)
    (hok : data.get "outputKey" = some ok)
    (hb : data.get "bucket" = some b)
    (hnodot : '.' ∉ (pathName ok).toList) :
    pathSuffix ok = ""
    ∧ alookup CONVERTERS (strLower (pathSuffix ok)) = none
    ∧ process_job env data fs st = ⟨JobOutcome.unsupported, fs, st, []⟩
    ∧ resolutionOf (process_job env data fs st).outcome
        = ProcResult.resolved Resolution.rejectDrop := by
  have h0 : rfindDot (pathName ok).data = none :=
    rfindDot_eq_none ((pathName ok).toList) hnodot
  have hsuf : pathSuffix ok = "" := by
    simp [pathSuffix, h0]
  have hlook : alookup CONVERTERS (strLower (pathSuffix ok)) = none := by
    rw [hsuf]
    decide
  exact ⟨hsuf, hlook,
    by simp [process_job, hik, hok, hb, hlook],
    by simp [process_job, hik, hok, hb, hlook, resolutionOf]⟩

/-- Witness for `C10_no_extension_drop`: `outputKey = "out/noext"`. -/
theorem C10_no_extension_drop_witness :
    pathSuffix "out/noext" = ""
    ∧ alookup CONVERTERS (strLower (pathSuffix "out/noext")) = none
    ∧ process_job okEnv ⟨[("bucket", "b"), ("inputKey", "in/doc.pdf"),
        ("outputKey", "out/noext")]⟩ [] st0
      = ⟨JobOutcome.unsupported, [], st0, []⟩
    ∧ resolutionOf (process_job okEnv ⟨[("bucket", "b"),
        ("inputKey", "in/doc.pdf"), ("outputKey", "out/noext")]⟩ [] st0).outcome
      = ProcResult.resolved Resolution.rejectDrop :=
  C10_no_extension_drop okEnv
    ⟨[("bucket", "b"), ("inputKey", "in/doc.pdf"),
      ("outputKey", "out/noext")]⟩ [] st0 "in/doc.pdf" "out/noext" "b"
    (by decide) (by decide) (by decide) (by decide)

end PdfWorker
